import Mathlib

/-!
Shallow embedding of the one-way-clutch motor-controller test rig
(`src/OWC/src/motor_controller.py` with its configuration
`src/OWC/src/config.py`), together with theorems settling the frozen
claims about it.

Modelling conventions:
* Decimal scale factors from the catalog are modelled as exact rationals
  (`40.46` becomes `2023/50`); at every concrete input used below the
  truncation/rounding results agree with Python float evaluation.
* Python `int()` truncates toward zero; it is modelled by `pyInt`.
* A fallible Modbus transport is modelled by a boolean `write_ok`
  (whether the underlying `write_registers` call raises) or, for reads,
  by an `Except String` outcome carrying the exception message.
* `asyncio` scheduling is not modelled; the claims below are about the
  sequential behaviour of single runs of the functions involved, with
  the shared `running` / `auto_recovery` flags held constant except
  where a function itself assigns them.
-/

namespace OWC

/-! ## Command / parameter catalog (config.py) -/

/-- Entry of the `COMMANDS` dict of `config.py`.  Keys missing from a
dict entry are represented by the value the code substitutes at the use
site (`command.get("multiplier", 1)` and `command.get("max_register_value")`
in `execute_command`): multiplier `1` and `none`. -/
structure CommandSpec where
  address : Nat
  multiplier : ℚ
  max_register_value : Option ℤ
deriving DecidableEq

/-- The `COMMANDS` dict of `config.py` (all 14 entries).  `2 ** 16`
appears as `65536`; `40.46 = 2023/50` and `40.96 = 1024/25` exactly. -/
def COMMANDS : String → Option CommandSpec := fun command_name =>
  if command_name = "set_speed_regulator_mode" then some ⟨11, 1, none⟩
  else if command_name = "set_remote_torque_command" then some ⟨494, 2023/50, some 65536⟩
  else if command_name = "set_remote_maximum_regen_battery_current_limit" then some ⟨361, 8, none⟩
  else if command_name = "set_remote_maximum_battery_current_limit" then some ⟨360, 8, none⟩
  else if command_name = "set_remote_maximum_motoring_current" then some ⟨491, 1024/25, none⟩
  else if command_name = "set_remote_maximum_braking_current" then some ⟨492, 1024/25, none⟩
  else if command_name = "set_remote_maximum_braking_torque" then some ⟨1680, 1024/25, none⟩
  else if command_name = "set_remote_speed_command" then some ⟨1677, 1, some 65536⟩
  else if command_name = "set_remote_state_command" then some ⟨493, 1, none⟩
  else if command_name = "read_faults" then some ⟨258, 1, none⟩
  else if command_name = "read_faults2" then some ⟨299, 1, none⟩
  else if command_name = "read_warnings" then some ⟨277, 1, none⟩
  else if command_name = "read_warnings2" then some ⟨359, 1, none⟩
  else if command_name = "clear_faults" then some ⟨508, 1, none⟩
  else none

/-- Entry of the `PARAMETER_CONFIG` dict of `config.py`. -/
structure ParamSpec where
  address : Nat
  multiplier : ℚ
deriving DecidableEq

/-- The `PARAMETER_CONFIG` dict of `config.py` (all 11 entries);
`0.03 = 3/100` and `0.032 = 4/125` exactly. -/
def PARAMETER_CONFIG : String → Option ParamSpec := fun data_type =>
  if data_type = "motor_temp" then some ⟨261, 1⟩
  else if data_type = "controller_temp" then some ⟨259, 1⟩
  else if data_type = "battery_voltage" then some ⟨265, 3/100⟩
  else if data_type = "battery_state of charge" then some ⟨267, 1⟩
  else if data_type = "motor_rpm" then some ⟨263, 1⟩
  else if data_type = "motor_current" then some ⟨262, 4/125⟩
  else if data_type = "battery_current" then some ⟨266, 4/125⟩
  else if data_type = "read_faults" then some ⟨258, 1⟩
  else if data_type = "read_faults2" then some ⟨299, 1⟩
  else if data_type = "read_warnings" then some ⟨277, 1⟩
  else if data_type = "read_warnings2" then some ⟨359, 1⟩
  else none

/-- The `RETRY_CONFIG` dict of `config.py`. -/
structure RetryConfig where
  max_retries : Nat
  retry_delay : Nat
deriving DecidableEq

def RETRY_CONFIG : RetryConfig := ⟨3, 1⟩

/-- A recovery stage of `config.py`: an attempt budget and a wait
interval in seconds. -/
structure RecoveryStage where
  attempts : Nat
  interval : Nat
deriving DecidableEq

/-- The default `RECOVERY_STAGES` table of `config.py`. -/
def RECOVERY_STAGES : List RecoveryStage := [⟨5, 60⟩, ⟨5, 300⟩, ⟨5, 900⟩, ⟨5, 1800⟩]

def INITIAL_WAIT_TIME : Nat := 10

/-! ## Fault / warning description tables (config.py) -/

def FAULT_DESCRIPTIONS : Nat → Option String := fun bit =>
  match bit with
  | 0 => some "Controller over voltage (flash code 1,1)"
  | 1 => some "Phase over current (flash code 1,2)"
  | 2 => some "Current sensor calibration (flash code 1,3)"
  | 3 => some "Current sensor over current (flash code 1,4)"
  | 4 => some "Controller over temperature (flash code 1,5)"
  | 5 => some "Motor Hall sensor fault (flash code 1,6)"
  | 6 => some "Controller under voltage (flash code 1,7)"
  | 7 => some "POST static gating test (flash code 1,8)"
  | 8 => some "Network communication timeout (flash code 2,1)"
  | 9 => some "Instantaneous phase over current (flash code 2,2)"
  | 10 => some "Motor over temperature (flash code 2,3)"
  | 11 => some "Throttle voltage outside range (flash code 2,4)"
  | 12 => some "Instantaneous controller over voltage (flash code 2,5)"
  | 13 => some "Internal error (flash code 2,6)"
  | 14 => some "POST dynamic gating test (flash code 2,7)"
  | 15 => some "Instantaneous under voltage (flash code 2,8)"
  | _ => none

def FAULT2_DESCRIPTIONS : Nat → Option String := fun bit =>
  match bit with
  | 0 => some "Parameter CRC (flash code 3,1)"
  | 1 => some "Current Scaling (flash code 3,2)"
  | 2 => some "Voltage Scaling (flash code 3,3)"
  | 3 => some "Headlight Undervoltage (flash code 3,4)"
  | 4 => some "Parameter 3 CRC (flash code 3,5)"
  | 5 => some "CAN bus (flash code 3,6)"
  | 6 => some "Hall Stall (flash code 3,7)"
  | 7 => some "Bootloader - Not used (flash code 3,8)"
  | 8 => some "Parameter2CRC (flash code 4,1)"
  | 9 => some "Hall vs Sensorless position > 30deg (flash code 4,2)"
  | 10 => some "Dynamic torque sensor voltage outside range (flash code 4,3)"
  | 11 => some "Dynamic Torque Sensor Static Voltage Fault (flash code 4,4)"
  | 12 => some "Remote CAN fault (flash code 4,5)"
  | 13 => some "Accelerometer Side Tilt fault (flash code 4,6)"
  | 14 => some "Open Phase Fault (flash code 4,7)"
  | 15 => some "Analog brake voltage out of range (flash code 4,8)"
  | _ => none

def WARNING_DESCRIPTIONS : Nat → Option String := fun bit =>
  match bit with
  | 0 => some "Communication Timeout (flash code 5,1)"
  | 1 => some "Hall Sensor (flash code 5,2)"
  | 2 => some "Hall stall (flash code 5,3)"
  | 3 => some "Wheel Speed Sensor (flash code 5,4)"
  | 4 => some "CAN Bus (flash code 5,5)"
  | 5 => some "Hall Illegal sector (flash code 5,6)"
  | 6 => some "Hall illegal transition (flash code 5,7)"
  | 7 => some "Low battery voltage foldback (flash code 5,8)"
  | 8 => some "High battery voltage foldback (flash code 6,1)"
  | 9 => some "Motor temperature foldback (flash code 6,2)"
  | 10 => some "Controller over temperature foldback (flash code 6,3)"
  | 11 => some "Low Battery SOC foldback (flash code 6,4)"
  | 12 => some "High Battery SOC foldback (flash code 6,5)"
  | 13 => some "12T overload foldback (flash code 6,6)"
  | 14 => some "Low temperature Battery/Controller foldback (flash code 6,7)"
  | 15 => some "BMS communication timeout (flash code 6,8)"
  | _ => none

def WARNING2_DESCRIPTIONS : Nat → Option String := fun bit =>
  match bit with
  | 0 => some "Throttle out of range (flash code 7,1)"
  | 1 => some "Dual speed sensor missing pulses (flash code 7,2)"
  | 2 => some "Dual speed sensor no pulses (flash code 7,3)"
  | 3 => some "Dynamic Flash Full (flash code 7,4)"
  | 4 => some "Dynamic Flash Read Error (flash code 7,5)"
  | 5 => some "Dynamic Flash Write Error (flash code 7,6)"
  | 6 => some "Parameters3 missing (flash code 7,7)"
  | 7 => some "Missed CAN Message (flash code 7,8)"
  | 8 => some "High Battery temperature foldback (flash code 8,1)"
  | 9 => some "ADC Saturation Event (flash code 8,2)"
  | 10 => some "Reserved (flash code 8,3)"
  | 11 => some "Reserved (flash code 8,4)"
  | 12 => some "Reserved (flash code 8,5)"
  | 13 => some "Reserved (flash code 8,6)"
  | 14 => some "Reserved (flash code 8,7)"
  | 15 => some "Reserved (flash code 8,8)"
  | _ => none

/-! ## Register write path (motor_controller.py lines 105-131) -/

/-- Python `int()` applied to a rational: truncation toward zero. -/
def pyInt (q : ℚ) : ℤ := if 0 ≤ q then Int.floor q else Int.ceil q

/-- Rounding to the nearest integer, used to state the spec side of the
encoding claim (`round(value * multiplier)`).  Python `round` uses
round-half-to-even; no input considered below sits on a half, where the
two conventions agree with this floor-based form. -/
def pyRound (q : ℚ) : ℤ := Int.floor (q + 1/2)

/-- The value preprocessing of `write_to_register` (lines 108-110):
`value = int(value * multiplier)` and, when `max_register_value` is
truthy (non-`None` and nonzero) and the truncated value is negative,
`value = max_register_value + value`. -/
def encode_register_value (value multiplier : ℚ) (max_register_value : Option ℤ) : ℤ :=
  let v : ℤ := pyInt (value * multiplier)
  match max_register_value with
  | some m => if m ≠ 0 ∧ v < 0 then m + v else v
  | none => v

/-- `write_to_register` (lines 105-114).  The whole body sits in a
`try` whose `except` handler only logs (with a message that reads
"Successfully wrote ..." even though it runs on failure), so the
coroutine always returns normally.  `write_ok` says whether the
underlying `motor.write_registers` call raises; the returned list is
the sequence of (address, raw value) writes that actually reached the
transport — empty when the write raised and was swallowed. -/
def write_to_register (write_ok : Bool) (address : Nat) (value : ℚ)
    (multiplier : ℚ) (max_register_value : Option ℤ) : Except String (List (Nat × ℤ)) :=
  let v := encode_register_value value multiplier max_register_value
  if write_ok then Except.ok [(address, v)] else Except.ok []

/-- `execute_command` (lines 116-131): resolves `command_name` in
`COMMANDS`; on a hit calls `write_to_register` and returns `True`, on a
miss returns `False`.  The `except` branch would return Python `None`
(modelled as `some true` / `some false` / `none`), but it is
unreachable because `write_to_register` never raises. -/
def execute_command (write_ok : Bool) (command_name : String) (value : ℚ) :
    Except String (Option Bool) :=
  match COMMANDS command_name with
  | some command =>
    match write_to_register write_ok command.address value command.multiplier
        command.max_register_value with
    | Except.ok _ => Except.ok (some true)
    | Except.error _ => Except.ok none
  | none => Except.ok (some false)

/-- `read_motor_data` (lines 133-147): unknown telemetry name returns
the sentinel `0`; a raising register read is caught and also returns
`0`; otherwise the raw register value is scaled by the configured
multiplier.  `read_result` is the outcome of the underlying
`motor.read_register` call.  The function is total: no exception
escapes to the caller. -/
def read_motor_data (read_result : Except String ℤ) (data_type : String) : ℚ :=
  match PARAMETER_CONFIG data_type with
  | none => 0
  | some config =>
    match read_result with
    | Except.ok raw_value => (raw_value : ℚ) * config.multiplier
    | Except.error _ => 0

/-! ## Bit decoding (motor_controller.py lines 149-176) -/

/-- `decode_bits` (lines 149-160): for each bit position 0..15, if the
bit is set in `register_value` (`register_value & (1 << bit_position)`)
and the position has a description, append the description. -/
def decode_bits (register_value : Nat) (descriptions : Nat → Option String) : List String :=
  (List.range 16).foldl
    (fun active_messages bit_position =>
      if register_value &&& (1 <<< bit_position) ≠ 0 then
        match descriptions bit_position with
        | some d => active_messages ++ [d]
        | none => active_messages
      else active_messages)
    []

/-- Spec-side decoder, written from the spec text (section 4.3 / 8):
iterate bit 0 to bit 15 in ascending order and emit exactly the
descriptions whose bit position is set in `v` and present in `T`,
silently ignoring set bits without a description.  Used to compare
`decode_bits` against the specification wording. -/
def decodeBitsSpec (v : Nat) (T : Nat → Option String) : List String :=
  List.filterMap T (List.filter (fun b => v.testBit b && (T b).isSome) (List.range 16))

def decode_fault_bits (register_value : Nat) : List String :=
  decode_bits register_value FAULT_DESCRIPTIONS

def decode_fault2_bits (register_value : Nat) : List String :=
  decode_bits register_value FAULT2_DESCRIPTIONS

def decode_warning_bits (register_value : Nat) : List String :=
  decode_bits register_value WARNING_DESCRIPTIONS

def decode_warning2_bits (register_value : Nat) : List String :=
  decode_bits register_value WARNING2_DESCRIPTIONS

/-! ## Fault / warning polling (motor_controller.py lines 178-250) -/

/-- `check_faults` (lines 178-213).  `attempts` lists, per retry of the
`for retry in range(RETRY_CONFIG["max_retries"])` loop, the joint
outcome of the two register reads of that retry (a full run passes a
list of length `RETRY_CONFIG.max_retries = 3`).  A successful retry
decodes and returns immediately.  If every retry raises, control
reaches `if "timeout" in str(e).lower():` after the loop — but Python
unbinds the `except ... as e` name at the end of each except clause, so
`str(e)` raises `NameError` instead of selecting the intended
`([], 0, 0)` / `(["Internal Modbus error"], 0, 0)` fallback returns,
and that `NameError` propagates to the caller. -/
def check_faults : List (Except String (Nat × Nat)) → Except String (List String × Nat × Nat)
  | [] => Except.error "NameError: name e is not defined"
  | Except.ok (faults_reg, faults2_reg) :: _ =>
    Except.ok (decode_fault_bits faults_reg ++ decode_fault2_bits faults2_reg,
      faults_reg, faults2_reg)
  | Except.error _ :: rest => check_faults rest

/-- `check_warnings` (lines 215-250), identical in structure to
`check_faults` (including the unbound `e` after the retry loop). -/
def check_warnings : List (Except String (Nat × Nat)) → Except String (List String × Nat × Nat)
  | [] => Except.error "NameError: name e is not defined"
  | Except.ok (warnings_reg, warnings2_reg) :: _ =>
    Except.ok (decode_warning_bits warnings_reg ++ decode_warning2_bits warnings2_reg,
      warnings_reg, warnings2_reg)
  | Except.error _ :: rest => check_warnings rest

/-! ## Staged fault recovery (motor_controller.py lines 306-393) -/

/-- A recovery status callback invocation: (event kind, detail). -/
abbrev RecoveryEvent := String × String

/-- The attempt-exhaustion bookkeeping of `advanced_fault_recovery`
(lines 378-387), run once after a clear-fault attempt has failed (the
fault registers still reported faults after the stage wait):
`attempt_in_stage += 1`; if the stage budget is exhausted,
`current_stage = (current_stage + 1) % len(RECOVERY_STAGES)`,
`attempt_in_stage = 0`, and a single `recovery_stage_change` callback
fires with the detail string Stage n+1.  `stages` is the
stage table; the loop maintains `current_stage < stages.length`, so
the out-of-range default of `getD` is never consulted. -/
def recovery_fail_step (stages : List RecoveryStage) (current_stage attempt_in_stage : Nat) :
    (Nat × Nat) × List RecoveryEvent :=
  let stage := stages.getD current_stage ⟨0, 0⟩
  let attempt2 := attempt_in_stage + 1
  if stage.attempts ≤ attempt2 then
    let next_stage := (current_stage + 1) % stages.length
    ((next_stage, 0), [("recovery_stage_change", "Stage " ++ toString (next_stage + 1))])
  else
    ((current_stage, attempt2), [])

/-- Iterates `recovery_fail_step` over `n` consecutive failed
clear-fault attempts, listing after each failure the new
(stage, attempt) state and the events that attempt emitted. -/
def recovery_fail_trace (stages : List RecoveryStage) (s : Nat × Nat) :
    Nat → List ((Nat × Nat) × List RecoveryEvent)
  | 0 => []
  | n + 1 =>
    let step := recovery_fail_step stages s.1 s.2
    step :: recovery_fail_trace stages step.1 n

/-! ## Cycle engine (motor_controller.py lines 436-589)

One iteration of the `while self.running:` loop of
`perform_motor_cycles` is modelled.  Time is abstracted away: a
segment is a (torque, rpm samples) pair where the sample list gives
the values `read_motor_data("motor_rpm")` returns at the successive
direction-verification ticks (the reads guarded by
`not rotation_verified and direction_check_attempts < max_direction_checks`).
`read_motor_data` is total (returns `0` on a failed read), so the
`except` branch of the verification tick (lines 533-535) is
unreachable and samples are plain rationals.  The corrective torque
reapplications at 1.2x and 1.5x (lines 522-523 and 532) and the
telemetry reads of lines 551-556 only issue commands or logging and
touch no control state, so they are not tracked.  The torque-set retry
loop of lines 465-477 always sets `set_success` on its first try
(`execute_command` never raises), so its segment-skipping `continue`
is likewise unreachable; and `self.running` stays true within an
iteration unless `stop_test` fires, which makes the coroutine return
at once. -/

/-- Result of one torque segment: either `stop_test` was called and
`perform_motor_cycles` returned immediately, or the segment ran to the
end of its duration with the iteration flags
(`forward_successful`, `reverse_successful`) as given. -/
inductive SegResult where
  | stopped : SegResult
  | done : Bool → Bool → SegResult
deriving DecidableEq

/-- The direction-verification ticks of one segment (lines 485-538).
Arguments mirror the Python locals: the segment torque, the pending
rpm samples, `forward_successful`, `reverse_successful`,
`rotation_verified`, `direction_check_attempts`
(`max_direction_checks` is the literal 5).  Once verification has
succeeded or the check budget is spent, later ticks only update the
timer display, so the segment result is fixed. -/
def runTicks (torque : ℚ) : List ℚ → Bool → Bool → Bool → Nat → SegResult
  | [], forward_successful, reverse_successful, _, _ =>
    SegResult.done forward_successful reverse_successful
  | motor_rpm :: rest, forward_successful, reverse_successful,
      rotation_verified, direction_check_attempts =>
    if rotation_verified = true ∨ 5 ≤ direction_check_attempts then
      SegResult.done forward_successful reverse_successful
    else
      if 0 < torque ∧ 10 < motor_rpm then
        runTicks torque rest true reverse_successful true (direction_check_attempts + 1)
      else if torque < 0 then
        if motor_rpm < -10 then
          SegResult.stopped
        else if abs motor_rpm < 5 then
          runTicks torque rest forward_successful true true (direction_check_attempts + 1)
        else
          runTicks torque rest forward_successful reverse_successful rotation_verified
            (direction_check_attempts + 1)
      else if (0 < torque ∧ motor_rpm < -10) ∨ (torque < 0 ∧ 10 < motor_rpm) then
        runTicks torque rest forward_successful reverse_successful rotation_verified
          (direction_check_attempts + 1)
      else
        runTicks torque rest forward_successful reverse_successful rotation_verified
          (direction_check_attempts + 1)

/-- The cycle-log f-string line of lines 559-562 (the file
write appends a trailing newline, making it one line of the log). -/
def logLine (current_count : Nat) : String := "No of cycles: " ++ toString current_count

/-- Outcome of one `while self.running:` iteration of
`perform_motor_cycles`: either `stop_test` fired inside a segment and
the coroutine returned the then-current count with the log as it
stood, or the iteration finished with the given count, log, and final
verification flags. -/
inductive IterResult where
  | stopped : Nat → List String → IterResult
  | finished : Nat → List String → Bool → Bool → IterResult
deriving DecidableEq

/-- The `for idx, (torque, duration) in enumerate(torque_duration_pairs)`
loop of one iteration (lines 458-569).  After every segment the code
reads telemetry and then runs the count block (lines 557-569): iff
both `forward_successful` and `reverse_successful` hold, the line
`logLine current_count` is appended to the cycle file and
the in-memory count is incremented (the file append is modelled as
succeeding; an OS-level write error would skip the increment together
with the append, keeping the two coupled).  The verification flags
persist across segments of the same iteration. -/
def runPairs : List (ℚ × List ℚ) → Bool → Bool → Nat → List String → IterResult
  | [], forward_successful, reverse_successful, current_count, log =>
    IterResult.finished current_count log forward_successful reverse_successful
  | (torque, samples) :: rest, forward_successful, reverse_successful, current_count, log =>
    match runTicks torque samples forward_successful reverse_successful false 0 with
    | SegResult.stopped => IterResult.stopped current_count log
    | SegResult.done f r =>
      if f && r then
        runPairs rest f r (current_count + 1) (log ++ [logLine current_count])
      else
        runPairs rest f r current_count log

/-- One full iteration of the cycle loop: the verification flags are
reset to `False` at the top of each `while self.running:` pass
(lines 456-457). -/
def runIteration (pairs : List (ℚ × List ℚ)) (current_count : Nat) (log : List String) :
    IterResult :=
  runPairs pairs false false current_count log

/-! ## Test startup (motor_controller.py lines 591-683) -/

/-- The initialization command list of `start_test` (lines 612-620). -/
def startup_commands (max_motor_current max_brake_current target_rpm : ℚ) : List (String × ℚ) :=
  [("set_speed_regulator_mode", 2),
   ("set_remote_maximum_regen_battery_current_limit", 48),
   ("set_remote_maximum_battery_current_limit", 75),
   ("set_remote_maximum_motoring_current", max_motor_current),
   ("set_remote_maximum_braking_current", max_brake_current),
   ("set_remote_speed_command", target_rpm),
   ("set_remote_torque_command", 0)]

/-- The per-command retry loop of `start_test` (lines 622-632 and
642-650): up to `fuel` tries; a try succeeds unless
`execute_command` raises, and a raise moves to the next retry.
Returns the `success` flag after the loop. -/
def startup_step_loop (write_ok : Bool) (cmd : String) (value : ℚ) : Nat → Bool
  | 0 => false
  | fuel + 1 =>
    match execute_command write_ok cmd value with
    | Except.ok _ => true
    | Except.error _ => startup_step_loop write_ok cmd value fuel

def startup_step (write_ok : Bool) (cmd : String) (value : ℚ) : Bool :=
  startup_step_loop write_ok cmd value RETRY_CONFIG.max_retries

/-- Outcome of the startup phase of `start_test`: either some step
exhausted its retries and the function returned `0` with
`self.running = False` (lines 634-637 and 652-655), or all steps
succeeded and the motor-cycle task is started. -/
inductive StartOutcome where
  | aborted : Nat → StartOutcome
  | cycling : StartOutcome
deriving DecidableEq

/-- The startup sequence of `start_test` (lines 609-658): the seven
initialization commands each run through the retry loop, then the
motor-enable command `("set_remote_state_command", 2)` runs through
the same loop.  Any step whose retries are exhausted aborts with
return value `0`. -/
def start_test_startup (write_ok : Bool)
    (max_motor_current max_brake_current target_rpm : ℚ) : StartOutcome :=
  if (startup_commands max_motor_current max_brake_current target_rpm).all
      (fun cv => startup_step write_ok cv.1 cv.2) then
    if startup_step write_ok "set_remote_state_command" 2 then StartOutcome.cycling
    else StartOutcome.aborted 0
  else StartOutcome.aborted 0

/-! ## Test shutdown (motor_controller.py lines 685-706) -/

/-- The externally visible actions `stop_test` can perform, in program
order: flag assignments, task cancellation requests, awaiting a task,
and register commands. -/
inductive StopAction where
  | set_running : Bool → StopAction
  | set_auto_recovery : Bool → StopAction
  | cancel : String → StopAction
  | await_task : String → StopAction
  | command : String → ℚ → StopAction
deriving DecidableEq

def StopAction.isAwait : StopAction → Bool
  | StopAction.await_task _ => true
  | _ => false

/-- The action trace of `stop_test` (lines 685-706).  The three
booleans say whether the corresponding task exists and is not done
(the `if self.X_task and not self.X_task.done():` guards).  Each
pending task receives `.cancel()`; no cancelled task is awaited.  The
closing `try` always reaches both commands because `execute_command`
never raises. -/
def stop_test (motor_pending fault_monitor_pending recovery_pending : Bool) :
    List StopAction :=
  [StopAction.set_running false, StopAction.set_auto_recovery false]
  ++ (if motor_pending then [StopAction.cancel "motor_task"] else [])
  ++ (if fault_monitor_pending then [StopAction.cancel "fault_monitor_task"] else [])
  ++ (if recovery_pending then [StopAction.cancel "recovery_task"] else [])
  ++ [StopAction.command "set_remote_torque_command" 0,
      StopAction.command "set_remote_state_command" 0]

/-- The cleanup of the `finally` block of `perform_motor_cycles`
(lines 580-587), for contrast with `stop_test`: there the fault
monitor task, if pending, is cancelled and then awaited. -/
def perform_motor_cycles_cleanup (fault_monitor_pending : Bool) : List StopAction :=
  if fault_monitor_pending then
    [StopAction.cancel "fault_monitor_task", StopAction.await_task "fault_monitor_task"]
  else []

/-! ## Helper lemmas -/

/-- `write_to_register` returns normally for every transport outcome:
its whole body is guarded by a catch-all `except` that only logs. -/
lemma write_to_register_never_raises (write_ok : Bool) (address : Nat)
    (value multiplier : ℚ) (max_register_value : Option ℤ) :
    ∃ l, write_to_register write_ok address value multiplier max_register_value
      = Except.ok l := by
  unfold write_to_register
  cases write_ok
  · exact ⟨[], rfl⟩
  · exact ⟨_, rfl⟩

/-- `execute_command` returns normally for every command name, value
and transport outcome. -/
lemma execute_command_never_raises (write_ok : Bool) (command_name : String) (value : ℚ) :
    ∃ b, execute_command write_ok command_name value = Except.ok b := by
  cases h : COMMANDS command_name with
  | none => exact ⟨some false, by simp [execute_command, h]⟩
  | some command =>
    obtain ⟨l, hl⟩ := write_to_register_never_raises write_ok command.address value
      command.multiplier command.max_register_value
    exact ⟨some true, by simp [execute_command, h, hl]⟩

/-- A single bit test `v & (1 << b) != 0` is `Nat.testBit`. -/
lemma and_one_shiftLeft_ne_zero (v b : Nat) :
    (v &&& (1 <<< b) ≠ 0) ↔ v.testBit b = true := by
  rw [Nat.one_shiftLeft, Nat.and_two_pow]
  cases h : v.testBit b <;> simp [h, Nat.pow_eq_zero]

/-- The decoding fold of `decode_bits`, generalized over the iteration
list and the accumulator. -/
lemma decode_bits_go (v : Nat) (T : Nat → Option String) :
    ∀ (L : List Nat) (acc : List String),
      List.foldl
        (fun active_messages bit_position =>
          if v &&& (1 <<< bit_position) ≠ 0 then
            match T bit_position with
            | some d => active_messages ++ [d]
            | none => active_messages
          else active_messages)
        acc L
      = acc ++ List.filterMap T (List.filter (fun b => v.testBit b && (T b).isSome) L) := by
  intro L
  induction L with
  | nil => intro acc; simp
  | cons b L ih =>
    intro acc
    rw [List.foldl_cons, ih]
    by_cases hb : v.testBit b
    · rw [if_pos ((and_one_shiftLeft_ne_zero v b).mpr hb)]
      cases hT : T b with
      | some d =>
        simp [List.filter_cons, hb, hT, List.filterMap_cons]
      | none =>
        simp [List.filter_cons, hb, hT]
    · rw [if_neg (fun h => hb ((and_one_shiftLeft_ne_zero v b).mp h))]
      simp [List.filter_cons, Bool.eq_false_iff.mpr hb]

/-! ## Claim C9: decode_bits -/

/-- C9: for every register value and description table, `decode_bits`
returns exactly the descriptions whose bit position is set and present
in the table, scanning bit 0 to bit 15 in ascending order and silently
ignoring set bits without a description; on the spec example,
`decode_bits 0b101 {0 : A, 2 : C} = [A, C]`.  (`decode_bits` only
inspects bits 0-15, so the equation holds for all naturals, in
particular all 16-bit values.) -/
theorem c9_decode_bits_matches_spec :
    (∀ (v : Nat) (T : Nat → Option String), decode_bits v T = decodeBitsSpec v T) ∧
    decode_bits 5 (fun b => if b = 0 then some "A" else if b = 2 then some "C" else none)
      = ["A", "C"] := by
  constructor
  · intro v T
    unfold decode_bits decodeBitsSpec
    rw [decode_bits_go]
    simp
  · decide

/-! ## Claim C10: read_motor_data -/

/-- C10: `read_motor_data` is total (the model returns a plain
rational, mirroring that both failure paths are caught inside the
function): an unknown telemetry name returns the sentinel `0`, a
raising register read returns the sentinel `0`, and otherwise the raw
register value scaled by the configured multiplier is returned. -/
theorem c10_read_motor_data_sentinel :
    (∀ (read_result : Except String ℤ) (data_type : String),
        PARAMETER_CONFIG data_type = none →
        read_motor_data read_result data_type = 0) ∧
    (∀ (msg : String) (data_type : String),
        read_motor_data (Except.error msg) data_type = 0) ∧
    (∀ (data_type : String) (config : ParamSpec) (raw_value : ℤ),
        PARAMETER_CONFIG data_type = some config →
        read_motor_data (Except.ok raw_value) data_type
          = (raw_value : ℚ) * config.multiplier) := by
  refine ⟨?_, ?_, ?_⟩
  · intro read_result data_type h
    unfold read_motor_data
    rw [h]
  · intro msg data_type
    unfold read_motor_data
    cases PARAMETER_CONFIG data_type <;> rfl
  · intro data_type config raw_value h
    unfold read_motor_data
    rw [h]

/-- Witness for C10 at concrete inputs: a battery-voltage read of raw
`100` scales by `0.03` to `3`; a raising rpm read returns `0`; an
unknown name returns `0`. -/
theorem c10_witness :
    read_motor_data (Except.ok 100) "battery_voltage" = 3 ∧
    read_motor_data (Except.error "Modbus timeout") "motor_rpm" = 0 ∧
    read_motor_data (Except.ok 100) "unknown_telemetry" = 0 := by
  refine ⟨?_, ?_, ?_⟩
  · have h := c10_read_motor_data_sentinel.2.2 "battery_voltage" ⟨265, 3/100⟩ 100 rfl
    rw [h]
    norm_num
  · exact c10_read_motor_data_sentinel.2.1 "Modbus timeout" "motor_rpm"
  · exact c10_read_motor_data_sentinel.1 (Except.ok 100) "unknown_telemetry" rfl

/-! ## Claim C4: execute_command swallows transport failures -/

/-- C4: for every command name present in `COMMANDS`, `execute_command`
returns `True` whether or not the underlying register write raised
(`write_to_register` catches every exception and only logs), and in
general `execute_command` always returns normally with `True` or
`False` — a transport write failure is never observable to its
callers, so retry loops around it can never see a failed write. -/
theorem c4_execute_command_always_true :
    (∀ (write_ok : Bool) (command_name : String) (value : ℚ) (command : CommandSpec),
        COMMANDS command_name = some command →
        execute_command write_ok command_name value = Except.ok (some true)) ∧
    (∀ (write_ok : Bool) (command_name : String) (value : ℚ),
        execute_command write_ok command_name value = Except.ok (some true) ∨
        execute_command write_ok command_name value = Except.ok (some false)) := by
  constructor
  · intro write_ok command_name value command h
    obtain ⟨l, hl⟩ := write_to_register_never_raises write_ok command.address value
      command.multiplier command.max_register_value
    simp [execute_command, h, hl]
  · intro write_ok command_name value
    cases h : COMMANDS command_name with
    | none => right; simp [execute_command, h]
    | some command =>
      left
      obtain ⟨l, hl⟩ := write_to_register_never_raises write_ok command.address value
        command.multiplier command.max_register_value
      simp [execute_command, h, hl]

/-- Witness for C4: the torque command with a raising transport write
(`write_ok = false`) still reports success. -/
theorem c4_witness :
    COMMANDS "set_remote_torque_command" = some ⟨494, 2023/50, some 65536⟩ ∧
    execute_command false "set_remote_torque_command" (-50) = Except.ok (some true) := by
  constructor
  · rfl
  · exact c4_execute_command_always_true.1 false "set_remote_torque_command" (-50)
      ⟨494, 2023/50, some 65536⟩ rfl

/-! ## Claim C8: check_faults / check_warnings after exhausted retries -/

/-- C8 (code bug): when every retry raises, `check_faults` and
`check_warnings` do not return the documented `([], 0, 0)` /
`(["Internal Modbus error"], 0, 0)` fallbacks: the post-loop test
`if "timeout" in str(e).lower():` references `e` after Python has
unbound it (the `except ... as e` name is deleted at the end of each
except clause), so a `NameError` is raised instead — for timeout and
non-timeout failures alike.  A retry that succeeds mid-way still
returns the decoded registers. -/
theorem c8_check_faults_raises_after_retries :
    check_faults [Except.error "Modbus timeout", Except.error "Modbus timeout",
        Except.error "Modbus timeout"]
      = Except.error "NameError: name e is not defined" ∧
    check_faults [Except.error "CRC check failed", Except.error "CRC check failed",
        Except.error "CRC check failed"]
      = Except.error "NameError: name e is not defined" ∧
    check_warnings [Except.error "Modbus timeout", Except.error "Modbus timeout",
        Except.error "Modbus timeout"]
      = Except.error "NameError: name e is not defined" ∧
    check_faults [Except.error "Modbus timeout", Except.ok (1, 0), Except.error "x"]
      = Except.ok (["Controller over voltage (flash code 1,1)"], 1, 0) := by
  refine ⟨rfl, rfl, rfl, ?_⟩
  rfl

lemma getD_of_get?_eq_some {α : Type} {l : List α} {n : Nat} {a d : α}
    (h : l.get? n = some a) : l.getD n d = a := by
  induction l generalizing n with
  | nil => simp at h
  | cons x xs ih =>
    cases n with
    | zero =>
      simp at h
      simp [List.getD_cons_zero, h]
    | succ m =>
      simp only [List.get?_cons_succ] at h
      rw [List.getD_cons_succ]
      exact ih h

/-! ## Claim C3: staged recovery escalation -/

/-- C3: after a failed clear-fault attempt, the attempt counter
increments; once the stage budget is exhausted the stage index
advances with wraparound to stage 0 after the last stage, emitting the
`recovery_stage_change` event exactly once at that boundary (and no
event otherwise); with the stage table `[{2, 10}, {1, 20}]`, three
consecutive failed attempts move the (stage, attempt) state
`(0,0) → (0,1) → (1,0) → (0,0)`, i.e. the stage index `0 → 0 → 1 → 0`,
with exactly one `recovery_stage_change` per boundary. -/
theorem c3_recovery_stage_escalation :
    (∀ (stages : List RecoveryStage) (current_stage attempt_in_stage : Nat)
        (stage : RecoveryStage),
        stages.get? current_stage = some stage →
        (attempt_in_stage + 1 < stage.attempts →
          recovery_fail_step stages current_stage attempt_in_stage
            = ((current_stage, attempt_in_stage + 1), [])) ∧
        (stage.attempts ≤ attempt_in_stage + 1 →
          recovery_fail_step stages current_stage attempt_in_stage
            = (((current_stage + 1) % stages.length, 0),
               [("recovery_stage_change",
                 "Stage " ++ toString ((current_stage + 1) % stages.length + 1))]))) ∧
    recovery_fail_trace [⟨2, 10⟩, ⟨1, 20⟩] (0, 0) 3
      = [((0, 1), []),
         ((1, 0), [("recovery_stage_change", "Stage 2")]),
         ((0, 0), [("recovery_stage_change", "Stage 1")])] := by
  constructor
  · intro stages current_stage attempt_in_stage stage hget
    have hD : stages.getD current_stage ⟨0, 0⟩ = stage := getD_of_get?_eq_some hget
    constructor
    · intro hlt
      unfold recovery_fail_step
      rw [hD, if_neg (by omega)]
    · intro hge
      unfold recovery_fail_step
      rw [hD, if_pos hge]
  · rfl

/-- Witness for C3: in stage 1 of the table `[{2,10},{1,20}]` (budget
1 attempt), one more failed attempt wraps the stage index back to 0
and emits a single stage-change event. -/
theorem c3_witness :
    ([⟨2, 10⟩, ⟨1, 20⟩] : List RecoveryStage).get? 1 = some ⟨1, 20⟩ ∧
    (⟨1, 20⟩ : RecoveryStage).attempts ≤ 0 + 1 ∧
    recovery_fail_step [⟨2, 10⟩, ⟨1, 20⟩] 1 0
      = ((0, 0), [("recovery_stage_change", "Stage 1")]) := by
  refine ⟨rfl, by decide, ?_⟩
  exact (c3_recovery_stage_escalation.1 [⟨2, 10⟩, ⟨1, 20⟩] 1 0 ⟨1, 20⟩ rfl).2 (by decide)

/-! ## Claim C5: startup failure handling -/

/-- The retry loop around a startup command always reports success,
because `execute_command` never raises. -/
lemma startup_step_always_true (write_ok : Bool) (cmd : String) (value : ℚ) :
    startup_step write_ok cmd value = true := by
  obtain ⟨b, hb⟩ := execute_command_never_raises write_ok cmd value
  unfold startup_step RETRY_CONFIG
  unfold startup_step_loop
  rw [hb]

/-- C5 (code bug): the startup abort path of `start_test` is
unreachable.  Because `write_to_register` swallows every transport
exception (its handler even logs "Successfully wrote ..."),
`execute_command` returns normally on every attempt, each retry loop
reports success on its first try, and `start_test` proceeds to the
cycling phase even when every register write raised — including the
concrete failing run with a fully dead transport (`write_ok = false`)
and the default parameters (70, 40, 300).  The spec behaviour (abort
after exhausted retries, count unchanged) cannot occur; were the abort
branch reached it would return the literal `0`, not the persisted
count. -/
theorem c5_startup_never_aborts :
    (∀ (write_ok : Bool) (max_motor_current max_brake_current target_rpm : ℚ),
        start_test_startup write_ok max_motor_current max_brake_current target_rpm
          = StartOutcome.cycling) ∧
    start_test_startup false 70 40 300 = StartOutcome.cycling := by
  have hmain : ∀ (write_ok : Bool) (mm mb tr : ℚ),
      start_test_startup write_ok mm mb tr = StartOutcome.cycling := by
    intro write_ok mm mb tr
    simp [start_test_startup, startup_commands, startup_step_always_true]
  exact ⟨hmain, hmain false 70 40 300⟩

/-! ## Claim C6: stop_test action order -/

/-- C6 counterexample: with all three tasks pending, `stop_test`
requests cancellation of each but performs no await of any task before
(or after) issuing the shutdown commands — contradicting the claim
that each cancellation is awaited before the final
torque=0 / state=0 sequence.  The full trace is listed explicitly. -/
theorem c6_counterexample_no_await :
    stop_test true true true
      = [StopAction.set_running false, StopAction.set_auto_recovery false,
         StopAction.cancel "motor_task", StopAction.cancel "fault_monitor_task",
         StopAction.cancel "recovery_task",
         StopAction.command "set_remote_torque_command" 0,
         StopAction.command "set_remote_state_command" 0] ∧
    (stop_test true true true).all (fun a => !a.isAwait) = true ∧
    perform_motor_cycles_cleanup true
      = [StopAction.cancel "fault_monitor_task",
         StopAction.await_task "fault_monitor_task"] := by
  exact ⟨rfl, rfl, rfl⟩

/-- C6 as amended: `stop_test` first clears the `running` and
`auto_recovery` flags, then cancels whichever of the cycle,
fault-monitor and recovery tasks are pending — without awaiting any of
them — and ends by issuing torque=0 followed by state=0. -/
theorem c6_stop_test_trace :
    ∀ (motor_pending fault_monitor_pending recovery_pending : Bool),
      (stop_test motor_pending fault_monitor_pending recovery_pending).take 2
          = [StopAction.set_running false, StopAction.set_auto_recovery false] ∧
      (stop_test motor_pending fault_monitor_pending recovery_pending).reverse.take 2
          = [StopAction.command "set_remote_state_command" 0,
             StopAction.command "set_remote_torque_command" 0] ∧
      (stop_test motor_pending fault_monitor_pending recovery_pending).all
          (fun a => !a.isAwait) = true ∧
      (StopAction.cancel "motor_task"
          ∈ stop_test motor_pending fault_monitor_pending recovery_pending
        ↔ motor_pending = true) ∧
      (StopAction.cancel "fault_monitor_task"
          ∈ stop_test motor_pending fault_monitor_pending recovery_pending
        ↔ fault_monitor_pending = true) ∧
      (StopAction.cancel "recovery_task"
          ∈ stop_test motor_pending fault_monitor_pending recovery_pending
        ↔ recovery_pending = true) := by
  decide

/-! ## Cycle-engine lemmas -/

/-- During a forward-torque segment (`0 < torque`) the clutch-failure
stop cannot fire (its branch requires `torque < 0`) and the
`reverse_successful` flag is never modified. -/
lemma runTicks_pos_preserves_rev (torque : ℚ) (ht : 0 < torque) :
    ∀ (samples : List ℚ) (fwd rev v : Bool) (a : Nat),
      ∃ f, runTicks torque samples fwd rev v a = SegResult.done f rev := by
  intro samples
  induction samples with
  | nil => intro fwd rev v a; exact ⟨fwd, rfl⟩
  | cons rpm rest ih =>
    intro fwd rev v a
    simp only [runTicks]
    by_cases hguard : (v = true ∨ 5 ≤ a)
    · rw [if_pos hguard]
      exact ⟨fwd, rfl⟩
    · rw [if_neg hguard]
      by_cases h1 : (0 < torque ∧ 10 < rpm)
      · rw [if_pos h1]
        exact ih true rev true (a + 1)
      · rw [if_neg h1, if_neg (by intro h2; linarith : ¬ torque < 0)]
        by_cases h3 : ((0 < torque ∧ rpm < -10) ∨ (torque < 0 ∧ 10 < rpm))
        · rw [if_pos h3]
          exact ih fwd rev v (a + 1)
        · rw [if_neg h3]
          exact ih fwd rev v (a + 1)

/-- During a reverse-torque segment, if the sample at verification
tick `k` (within the 5-check budget) is below `-10` and no earlier
tick verified the segment (no earlier sample had absolute value below
5), `runTicks` reaches the clutch-failure branch and stops. -/
lemma runTicks_neg_stops (torque : ℚ) (ht : torque < 0) :
    ∀ (k : Nat) (samples : List ℚ) (a : Nat) (fwd rev : Bool) (r : ℚ),
      k + a < 5 → samples.get? k = some r → r < -10 →
      (∀ (j : Nat) (rj : ℚ), j < k → samples.get? j = some rj → ¬ abs rj < 5) →
      runTicks torque samples fwd rev false a = SegResult.stopped := by
  intro k
  induction k with
  | zero =>
    intro samples a fwd rev r hlt hget hr _
    cases samples with
    | nil => simp at hget
    | cons r0 rest =>
      have hr0 : r0 = r := by simpa using hget
      subst hr0
      simp only [runTicks]
      rw [if_neg (by simp; omega : ¬ (false = true ∨ 5 ≤ a))]
      rw [if_neg (by intro h1; linarith : ¬ (0 < torque ∧ 10 < r0))]
      rw [if_pos ht, if_pos hr]
  | succ k ih =>
    intro samples a fwd rev r hlt hget hr hpre
    cases samples with
    | nil => simp at hget
    | cons r0 rest =>
      simp only [List.get?_cons_succ] at hget
      simp only [runTicks]
      rw [if_neg (by simp; omega : ¬ (false = true ∨ 5 ≤ a))]
      rw [if_neg (by intro h1; linarith : ¬ (0 < torque ∧ 10 < r0))]
      rw [if_pos ht]
      by_cases h0 : r0 < -10
      · rw [if_pos h0]
      · rw [if_neg h0]
        have habs : ¬ abs r0 < 5 := hpre 0 r0 (Nat.succ_pos k) rfl
        rw [if_neg habs]
        exact ih rest (a + 1) fwd rev r (by omega) hget hr
          (fun j rj hj hg => hpre (j + 1) rj (by omega) (by simpa using hg))

/-! ## Claim C1: clutch-failure short-circuit -/

/-- C1 counterexample: in a reverse-torque segment (torque −100) every
verification tick samples RPM `11`, which exceeds `+10`; the claim
says the engine must stop the whole test and return the current count,
but the code only stops on `motor_rpm < -10`, so the iteration runs to
completion (reverse unverified, count and log untouched) instead of
stopping.  (For reverse torque the chain
`if torque > 0 and rpm > 10 / elif torque < 0 / elif ...` makes the
wrong-direction branch for `rpm > 10` unreachable.) -/
theorem c1_counterexample_positive_rpm_ignored :
    runIteration [(100, [50]), (-100, [11, 11, 11, 11, 11])] 7 []
        = IterResult.finished 7 [] true false ∧
    (10 : ℚ) < 11 ∧ (-100 : ℚ) < 0 := by
  refine ⟨by decide, by decide, by decide⟩

/-- C1 as amended: during a reverse-torque segment, if a sampled RPM
at a direction-verification tick (before the segment is verified,
within the 5-check budget) is below `-10`, the engine calls
`stop_test` — which zeroes torque and disables the motor, see the
`stop_test` trace model — and `perform_motor_cycles` immediately
returns the then-current cycle count, leaving count and log
untouched. -/
theorem c1_reverse_clutch_stop :
    ∀ (forward_torque reverse_torque : ℚ) (forward_samples reverse_samples : List ℚ)
      (current_count : Nat) (log : List String) (k : Nat) (r : ℚ),
      0 < forward_torque → reverse_torque < 0 →
      k < 5 → reverse_samples.get? k = some r → r < -10 →
      (∀ (j : Nat) (rj : ℚ), j < k → reverse_samples.get? j = some rj → ¬ abs rj < 5) →
      runIteration [(forward_torque, forward_samples), (reverse_torque, reverse_samples)]
          current_count log
        = IterResult.stopped current_count log := by
  intro ft rt fs rs current_count log k r hft hrt hk hget hr hpre
  unfold runIteration
  obtain ⟨f1, hf1⟩ := runTicks_pos_preserves_rev ft hft fs false false false 0
  simp only [runPairs]
  rw [hf1]
  simp only [Bool.and_false, Bool.false_eq_true, if_false]
  rw [runTicks_neg_stops rt hrt k rs 0 f1 false r (by omega) hget hr hpre]

/-- Witness for C1 (amended): forward torque 100 with no verification
samples, then reverse torque −100 sampling −50 at the first tick:
the iteration stops with count 3 and log unchanged. -/
theorem c1_witness :
    (0 : ℚ) < 100 ∧ (-100 : ℚ) < 0 ∧ (-50 : ℚ) < -10 ∧
    runIteration [(100, []), (-100, [-50])] 3 [] = IterResult.stopped 3 [] := by
  refine ⟨by decide, by decide, by decide, ?_⟩
  exact c1_reverse_clutch_stop 100 (-100) [] [-50] 3 [] 0 (-50) (by decide) (by decide)
    (by decide) (by decide) (by decide)
    (fun j rj hj _ => absurd hj (Nat.not_lt_zero j))

/-! ## Claim C2: cycle counted iff both segments verified -/

/-- C2: in a (forward, reverse) iteration of `perform_motor_cycles`
that runs to completion, the log line `"No of cycles: <n>"` is
appended and the in-memory count incremented if and only if both the
forward and the reverse verification flags ended the iteration true;
in particular an iteration with only forward success appends nothing
and keeps the count. -/
theorem c2_cycle_count_iff_both_verified :
    ∀ (forward_torque reverse_torque : ℚ) (forward_samples reverse_samples : List ℚ)
      (current_count : Nat) (log : List String),
      0 < forward_torque → reverse_torque < 0 →
      ∀ (count2 : Nat) (log2 : List String) (f r : Bool),
        runIteration [(forward_torque, forward_samples), (reverse_torque, reverse_samples)]
            current_count log
          = IterResult.finished count2 log2 f r →
        ((f = true ∧ r = true) →
            count2 = current_count + 1 ∧ log2 = log ++ [logLine current_count]) ∧
        (¬ (f = true ∧ r = true) → count2 = current_count ∧ log2 = log) := by
  intro ft rt fs rs current_count log hft hrt count2 log2 f r hrun
  unfold runIteration at hrun
  obtain ⟨f1, hf1⟩ := runTicks_pos_preserves_rev ft hft fs false false false 0
  simp only [runPairs] at hrun
  rw [hf1] at hrun
  simp only [Bool.and_false, Bool.false_eq_true, if_false] at hrun
  cases h2 : runTicks rt rs f1 false false 0 with
  | stopped =>
    rw [h2] at hrun
    simp only [runPairs] at hrun
    exact absurd hrun (by simp)
  | done f2 r2 =>
    rw [h2] at hrun
    simp only [runPairs] at hrun
    by_cases hb : (f2 && r2) = true
    · rw [if_pos hb] at hrun
      rw [IterResult.finished.injEq] at hrun
      obtain ⟨hc, hl, hf, hr2⟩ := hrun
      constructor
      · intro _
        exact ⟨hc.symm, hl.symm⟩
      · intro hcontra
        obtain ⟨hfb, hrb⟩ := Bool.and_eq_true_iff.mp hb
        exact absurd ⟨hf ▸ hfb, hr2 ▸ hrb⟩ hcontra
    · rw [if_neg hb] at hrun
      rw [IterResult.finished.injEq] at hrun
      obtain ⟨hc, hl, hf, hr2⟩ := hrun
      constructor
      · intro hboth
        exact absurd (by rw [← hf, ← hr2] at hboth; simp [hboth.1, hboth.2] : (f2 && r2) = true) hb
      · intro _
        exact ⟨hc.symm, hl.symm⟩

/-- Witness for C2: forward 100 verifying at RPM 50, reverse −100
verifying at RPM 0 (freewheeling): one line appended, count 7 → 8;
the conclusion is obtained from the theorem at these inputs. -/
theorem c2_witness :
    (0 : ℚ) < 100 ∧ (-100 : ℚ) < 0 ∧
    runIteration [(100, [50]), (-100, [0])] 7 []
        = IterResult.finished 8 ["No of cycles: 7"] true true ∧
    (8 = 7 + 1 ∧ ["No of cycles: 7"] = [] ++ [logLine 7]) := by
  refine ⟨by decide, by decide, by decide, ?_⟩
  exact (c2_cycle_count_iff_both_verified 100 (-100) [50] [0] 7 [] (by decide) (by decide)
    8 ["No of cycles: 7"] true true (by decide)).1 ⟨rfl, rfl⟩

/-! ## Claim C7: register-value encoding -/

lemma pyInt_of_99 : pyInt ((99 : ℚ) * (2023/50)) = 4005 := by
  have hprod : (99 : ℚ) * (2023/50) = 200277/50 := by norm_num
  unfold pyInt
  rw [hprod, if_pos (by norm_num : (0 : ℚ) ≤ 200277/50)]
  rw [Int.floor_eq_iff]
  norm_num

lemma pyInt_of_neg50 : pyInt ((-50 : ℚ) * (2023/50)) = -2023 := by
  have hprod : (-50 : ℚ) * (2023/50) = -2023 := by norm_num
  unfold pyInt
  rw [hprod, if_neg (by norm_num : ¬ (0 : ℚ) ≤ -2023)]
  rw [Int.ceil_eq_iff]
  constructor <;> norm_num

lemma pyInt_of_neg2000 : pyInt ((-2000 : ℚ) * (2023/50)) = -80920 := by
  have hprod : (-2000 : ℚ) * (2023/50) = -80920 := by norm_num
  unfold pyInt
  rw [hprod, if_neg (by norm_num : ¬ (0 : ℚ) ≤ -80920)]
  rw [Int.ceil_eq_iff]
  constructor <;> norm_num

/-- C7 counterexample: for the torque command (multiplier 40.46,
max-register-value 65536) the code writes `int(value * multiplier)`
(truncation toward zero), not `round(value * multiplier)`: at value
99 the code encodes 4005 while `round(99 * 40.46) = round(4005.54)`
is 4006.  The claimed range `[0, 65536)` also fails: at value −2000
the encoded value is `65536 + int(-80920) = -15384 < 0` (no clamping
is performed). -/
theorem c7_counterexample_truncation_and_range :
    COMMANDS "set_remote_torque_command" = some ⟨494, 2023/50, some 65536⟩ ∧
    encode_register_value 99 (2023/50) (some 65536) = 4005 ∧
    pyRound ((99 : ℚ) * (2023/50)) = 4006 ∧
    (4005 : ℤ) ≠ 4006 ∧
    encode_register_value (-2000) (2023/50) (some 65536) = -15384 ∧
    (-15384 : ℤ) < 0 := by
  refine ⟨rfl, ?_, ?_, by decide, ?_, by decide⟩
  · unfold encode_register_value
    rw [pyInt_of_99]
    norm_num
  · unfold pyRound
    have hprod : (99 : ℚ) * (2023/50) + 1/2 = 100151/25 := by norm_num
    rw [hprod, Int.floor_eq_iff]
    norm_num
  · unfold encode_register_value
    rw [pyInt_of_neg2000]
    norm_num

/-- C7 as amended: the raw value written for a command with a
multiplier and a max-register-value is `int(value * multiplier)`
(truncated toward zero), with the max-register-value added when the
truncated value is negative; `execute("set_remote_torque_command", -50)`
writes `65536 + int(-50 * 40.46) = 63513`; and the encoded value lies
in `[0, 65536)` whenever the truncated product lies in
`[-65536, 65535]` (outside that band no clamping is applied and the
result leaves the register range). -/
theorem c7_encoding_truncates :
    COMMANDS "set_remote_torque_command" = some ⟨494, 2023/50, some 65536⟩ ∧
    encode_register_value (-50) (2023/50) (some 65536)
        = 65536 + pyInt ((-50 : ℚ) * (2023/50)) ∧
    encode_register_value (-50) (2023/50) (some 65536) = 63513 ∧
    (∀ value : ℚ,
      -65536 ≤ pyInt (value * (2023/50)) → pyInt (value * (2023/50)) ≤ 65535 →
      0 ≤ encode_register_value value (2023/50) (some 65536) ∧
      encode_register_value value (2023/50) (some 65536) < 65536) := by
  refine ⟨rfl, ?_, ?_, ?_⟩
  · unfold encode_register_value
    rw [pyInt_of_neg50]
    norm_num
  · unfold encode_register_value
    rw [pyInt_of_neg50]
    norm_num
  · intro value hlo hhi
    have hval : encode_register_value value (2023/50) (some 65536)
        = if (65536 : ℤ) ≠ 0 ∧ pyInt (value * (2023/50)) < 0
          then 65536 + pyInt (value * (2023/50)) else pyInt (value * (2023/50)) := rfl
    rw [hval]
    by_cases hneg : pyInt (value * (2023/50)) < 0
    · rw [if_pos ⟨by decide, hneg⟩]
      omega
    · rw [if_neg (fun hc => hneg hc.2)]
      omega

/-- Witness for C7 (amended) at value −50: the truncated product
−2023 lies in the safe band, and the encoded value 63513 lies in
`[0, 65536)`. -/
theorem c7_witness :
    (-65536 : ℤ) ≤ pyInt ((-50 : ℚ) * (2023/50)) ∧
    pyInt ((-50 : ℚ) * (2023/50)) ≤ 65535 ∧
    (0 ≤ encode_register_value (-50) (2023/50) (some 65536) ∧
      encode_register_value (-50) (2023/50) (some 65536) < 65536) := by
  refine ⟨by rw [pyInt_of_neg50]; decide, by rw [pyInt_of_neg50]; decide, ?_⟩
  exact c7_encoding_truncates.2.2.2 (-50) (by rw [pyInt_of_neg50]; decide)
    (by rw [pyInt_of_neg50]; decide)

end OWC
